import Mathlib

/-!
Verification of the ResNet construction core and auxiliary scripts of the
repository (files `model/resnet2.py`, `synthesize_results.py`, `train.py`).

The network-construction code builds a TensorFlow computation graph.  We give
a shallow embedding: a graph is an expression tree `T`, and each TensorFlow
library call used by the repository (`tf.contrib.layers.conv2d`,
`tf.layers.batch_normalization`, `tf.nn.relu`, pooling, flatten,
`tf.contrib.layers.fully_connected`, `tf.identity`, `tf.pad`) becomes an
opaque node constructor recording exactly the arguments the repository passes.
Python floats used only as configuration values (weight decay, metrics) are
modelled as exact rationals; Python exceptions become `Option`/`Except`.
-/

/-- The padding mode handed to the convolution library call. -/
inductive Padding where
  | SAME
  | VALID
deriving DecidableEq, Repr

/-- Computation-graph expressions.  One constructor per TensorFlow library
operation used by `model/resnet2.py`; each records the arguments supplied at
the call site. -/
inductive T where
  | input : T
  | pad : T → Nat → Nat → T
  | convLib : T → Nat → Nat → Nat → Padding → Rat → T
  | batchNormLib : T → Bool → T
  | relu : T → T
  | add : T → T → T
  | maxPool : T → Nat → Nat → Padding → T
  | avgPool : T → Nat → Nat → Padding → T
  | identity : T → String → T
  | flatten : T → T
  | fullyConnected : T → Nat → Rat → T
deriving DecidableEq, Repr

/-- Embeds `batch_norm` (resnet2.py line 56): batch normalization with the
fixed decay/epsilon constants; only the data-dependent arguments appear in
the graph. -/
def batch_norm (inputs : T) (training : Bool) : T :=
  T.batchNormLib inputs training

/-- Embeds `fixed_padding` (resnet2.py line 66): symmetric spatial padding
computed from the kernel size alone. -/
def fixed_padding (inputs : T) (kernel_size : Nat) : T :=
  let pad_total := kernel_size - 1
  let pad_beg := pad_total / 2
  let pad_end := pad_total - pad_beg
  T.pad inputs pad_beg pad_end

/-- Embeds `conv2d_fixed_padding` (resnet2.py line 88): explicit padding when
`strides > 1`, then the library convolution with SAME padding for unit stride
and VALID otherwise.  The `print` call there is I/O and is not modelled. -/
def conv2d_fixed_padding (inputs : T) (filters kernel_size strides : Nat)
    (weight_decay : Rat) : T :=
  let inputs := if strides > 1 then fixed_padding inputs kernel_size else inputs
  T.convLib inputs filters kernel_size strides
    (if strides = 1 then Padding.SAME else Padding.VALID) weight_decay

/-- Embeds `_building_block_v1` (resnet2.py line 106). -/
def building_block_v1 (inputs : T) (filters : Nat) (training : Bool)
    (projection_shortcut : Option (T → Rat → T)) (strides : Nat)
    (weight_decay : Rat) : T :=
  let shortcut := inputs
  let shortcut := match projection_shortcut with
    | some p => batch_norm (p inputs weight_decay) training
    | none => shortcut
  let inputs := conv2d_fixed_padding inputs filters 3 strides weight_decay
  let inputs := batch_norm inputs training
  let inputs := T.relu inputs
  let inputs := conv2d_fixed_padding inputs filters 3 1 weight_decay
  let inputs := batch_norm inputs training
  let inputs := T.add inputs shortcut
  T.relu inputs

/-- Embeds `_building_block_v2` (resnet2.py line 150): pre-activation
ordering; the projection shortcut, when present, consumes the
normalized-and-activated input. -/
def building_block_v2 (inputs : T) (filters : Nat) (training : Bool)
    (projection_shortcut : Option (T → Rat → T)) (strides : Nat)
    (weight_decay : Rat) : T :=
  let shortcut := inputs
  let inputs := batch_norm inputs training
  let inputs := T.relu inputs
  let shortcut := match projection_shortcut with
    | some p => p inputs weight_decay
    | none => shortcut
  let inputs := conv2d_fixed_padding inputs filters 3 strides weight_decay
  let inputs := batch_norm inputs training
  let inputs := T.relu inputs
  let inputs := conv2d_fixed_padding inputs filters 3 1 weight_decay
  T.add inputs shortcut

/-- Embeds `_bottleneck_block_v1` (resnet2.py line 194). -/
def bottleneck_block_v1 (inputs : T) (filters : Nat) (training : Bool)
    (projection_shortcut : Option (T → Rat → T)) (strides : Nat)
    (weight_decay : Rat) : T :=
  let shortcut := inputs
  let shortcut := match projection_shortcut with
    | some p => batch_norm (p inputs weight_decay) training
    | none => shortcut
  let inputs := conv2d_fixed_padding inputs filters 1 1 weight_decay
  let inputs := batch_norm inputs training
  let inputs := T.relu inputs
  let inputs := conv2d_fixed_padding inputs filters 3 strides weight_decay
  let inputs := batch_norm inputs training
  let inputs := T.relu inputs
  let inputs := conv2d_fixed_padding inputs (4 * filters) 1 1 weight_decay
  let inputs := batch_norm inputs training
  let inputs := T.add inputs shortcut
  T.relu inputs

/-- Embeds `_bottleneck_block_v2` (resnet2.py line 232). -/
def bottleneck_block_v2 (inputs : T) (filters : Nat) (training : Bool)
    (projection_shortcut : Option (T → Rat → T)) (strides : Nat)
    (weight_decay : Rat) : T :=
  let shortcut := inputs
  let inputs := batch_norm inputs training
  let inputs := T.relu inputs
  let shortcut := match projection_shortcut with
    | some p => p inputs weight_decay
    | none => shortcut
  let inputs := conv2d_fixed_padding inputs filters 1 1 weight_decay
  let inputs := batch_norm inputs training
  let inputs := T.relu inputs
  let inputs := conv2d_fixed_padding inputs filters 3 strides weight_decay
  let inputs := batch_norm inputs training
  let inputs := T.relu inputs
  let inputs := conv2d_fixed_padding inputs (4 * filters) 1 1 weight_decay
  T.add inputs shortcut

/-- Embeds `block_layer` (resnet2.py line 276): the first block receives the
projection-shortcut closure and the stage strides, every later block receives
no projection and stride 1; Python's `range(1, blocks)` performs
`blocks - 1` iterations. -/
def block_layer (inputs : T) (filters : Nat) (bottleneck : Bool)
    (block_fn : T → Nat → Bool → Option (T → Rat → T) → Nat → Rat → T)
    (blocks strides : Nat) (training : Bool) (name : String)
    (weight_decay : Rat) : T :=
  let filters_out := if bottleneck then filters * 4 else filters
  let projection_shortcut : T → Rat → T := fun x wd =>
    conv2d_fixed_padding x filters_out 1 strides wd
  let inputs := block_fn inputs filters training (some projection_shortcut)
    strides weight_decay
  let inputs := (List.range (blocks - 1)).foldl
    (fun acc _ => block_fn acc filters training none 1 weight_decay) inputs
  T.identity inputs name

/-- The model record built by `Model.__init__` (resnet2.py line 320): the
configuration fields plus the block function selected once at construction
time. -/
structure Model where
  resnet_version : Int
  bottleneck : Bool
  block_fn : T → Nat → Bool → Option (T → Rat → T) → Nat → Rat → T
  num_classes : Nat
  num_filters : Nat
  kernel_size : Nat
  conv_stride : Nat
  first_pool_size : Option Nat
  first_pool_stride : Nat
  second_pool_size : Nat
  second_pool_stride : Nat
  block_sizes : List Nat
  block_strides : List Nat
  final_size : Nat
  weight_decay : Rat

/-- Embeds `Model.__init__` (resnet2.py line 320): raises `ValueError` unless
`version` is 1 or 2, and selects the block function from
`(version, bottleneck)`. -/
def modelInit (bottleneck : Bool) (num_classes num_filters kernel_size conv_stride : Nat)
    (first_pool_size : Option Nat) (first_pool_stride second_pool_size second_pool_stride : Nat)
    (block_sizes block_strides : List Nat) (final_size : Nat) (version : Int)
    (weight_decay : Rat) : Except String Model :=
  if version = 1 ∨ version = 2 then
    Except.ok
      { resnet_version := version
        bottleneck := bottleneck
        block_fn :=
          if bottleneck then
            if version = 1 then bottleneck_block_v1 else bottleneck_block_v2
          else
            if version = 1 then building_block_v1 else building_block_v2
        num_classes := num_classes
        num_filters := num_filters
        kernel_size := kernel_size
        conv_stride := conv_stride
        first_pool_size := first_pool_size
        first_pool_stride := first_pool_stride
        second_pool_size := second_pool_size
        second_pool_stride := second_pool_stride
        block_sizes := block_sizes
        block_strides := block_strides
        final_size := final_size
        weight_decay := weight_decay }
  else
    Except.error "Resnet version should be 1 or 2. See README for citations."

/-- Embeds `Model.__call__` (resnet2.py line 382): initial convolution,
optional first max-pooling (Python truthiness: skipped when
`first_pool_size` is `None` or `0`), the stage loop with doubling filter
counts, final batch-norm/ReLU/average-pool, flatten, and the fully-connected
projection to `num_classes` outputs. -/
def Model.call (m : Model) (inputs : T) (training : Bool) : T :=
  let inputs := conv2d_fixed_padding inputs m.num_filters m.kernel_size
    m.conv_stride m.weight_decay
  let inputs := T.identity inputs "initial_conv"
  let inputs :=
    match m.first_pool_size with
    | some ps =>
        if ps = 0 then inputs
        else T.identity (T.maxPool inputs ps m.first_pool_stride Padding.SAME)
          "initial_max_pool"
    | none => inputs
  let inputs := m.block_sizes.enum.foldl
    (fun acc p =>
      block_layer acc (m.num_filters * 2 ^ p.1) m.bottleneck m.block_fn p.2
        (m.block_strides.getD p.1 0) training
        ("block_layer" ++ toString (p.1 + 1)) m.weight_decay)
    inputs
  let inputs := batch_norm inputs training
  let inputs := T.relu inputs
  let inputs := T.avgPool inputs m.second_pool_size m.second_pool_stride Padding.VALID
  let inputs := T.identity inputs "final_avg_pool"
  let inputs := T.flatten inputs
  let inputs := T.fullyConnected inputs m.num_classes m.weight_decay
  T.identity inputs "final_dense"

/-- resnet2.py line 50. -/
def DEFAULT_VERSION : Int := 2

/-- The configuration object handed to `build_resnet_`.  `version` and
`final_size` are carried so we can state that `build_resnet_` never reads
them; `image_size` is used only by the shape assertion, which concerns tensor
shapes outside this graph embedding. -/
structure Params where
  bottleneck : Bool
  num_classes : Nat
  num_filters : Nat
  kernel_size : Nat
  conv_stride : Nat
  first_pool_size : Option Nat
  first_pool_stride : Nat
  second_pool_size : Nat
  second_pool_stride : Nat
  block_sizes : List Nat
  block_strides : List Nat
  weight_decay : Rat
  image_size : Nat
  version : Int
  final_size : Nat

/-- The `Model(...)` construction performed by `build_resnet_` (resnet2.py
line 429): `params.num_classes` is passed both as `num_classes` and as the
`final_size` argument, and the version is the module constant
`DEFAULT_VERSION`. -/
def build_resnet_model (params : Params) : Except String Model :=
  modelInit params.bottleneck params.num_classes params.num_filters
    params.kernel_size params.conv_stride params.first_pool_size
    params.first_pool_stride params.second_pool_size params.second_pool_stride
    params.block_sizes params.block_strides params.num_classes DEFAULT_VERSION
    params.weight_decay

/-- Embeds `build_resnet_` (resnet2.py line 428): construct the model, then
invoke it on the images tensor.  The `images.get_shape()` assertion concerns
shapes of the input dictionary and is outside the graph embedding. -/
def build_resnet_ (is_training : Bool) (inputs : T) (params : Params) :
    Except String T :=
  match build_resnet_model params with
  | Except.error e => Except.error e
  | Except.ok resnet => Except.ok (resnet.call inputs is_training)

/-- One experiment entry read from `metrics_eval_best_weights.json`; the
`name` is the experiment subdirectory key of the metrics dictionary, and
`recall_` carries the json `recall` key (`recall` is reserved in this
environment). -/
structure MetricsEntry where
  name : String
  precision : Rat
  recall_ : Rat
deriving DecidableEq, Repr

/-- One row of the aggregated table produced by `metrics_to_table`: the entry
together with its computed F2 value. -/
structure MetricsRow where
  name : String
  precision : Rat
  recall_ : Rat
  F2 : Rat
deriving DecidableEq, Repr

/-- The F2 formula of `metrics_to_table` (synthesize_results.py line 46). -/
def f2_of (precision recall_ : Rat) : Rat :=
  5 * precision * recall_ / (4 * precision + recall_)

/-- One iteration of the F2 loop (synthesize_results.py lines 43-47): Python
float division raises `ZeroDivisionError` when `4*precision + recall == 0`,
modelled as `none`. -/
def computeF2 (e : MetricsEntry) : Option MetricsRow :=
  if 4 * e.precision + e.recall_ = 0 then none
  else some ⟨e.name, e.precision, e.recall_, 5 * e.precision * e.recall_ / (4 * e.precision + e.recall_)⟩

/-- Embeds the data content of `metrics_to_table` (synthesize_results.py
line 40): the F2 loop runs first and raises on a zero denominator; on an
empty dictionary the subsequent `metrics[list(metrics.keys())[0]]` header
access raises `IndexError`.  The textual rendering by `tabulate`/`pandas` is
an external library concern and is not modelled; the rows carry the data the
table is built from. -/
def computeF2List : List MetricsEntry → Option (List MetricsRow)
  | [] => some []
  | e :: rest =>
    match computeF2 e with
    | none => none
    | some r =>
      match computeF2List rest with
      | none => none
      | some rs => some (r :: rs)

def metrics_to_table (ms : List MetricsEntry) : Option (List MetricsRow) :=
  match computeF2List ms with
  | none => none
  | some rows => if rows.isEmpty then none else some rows

/-- The inner step of the label-vocabulary loop in train.py (lines 61-67):
append a label unless it was already seen. -/
def addUniqueLabel {α : Type} [DecidableEq α] (acc : List α) (l : α) : List α :=
  if l ∈ acc then acc else acc ++ [l]

/-- Embeds the unique-label-list construction of train.py (lines 61-67) for
one split.  Each tag string is represented by its list of space-separated
labels (the result of `tag_str.split(' ')`). -/
def uniqueLabels {α : Type} [DecidableEq α] (tags : List (List α)) : List α :=
  tags.foldl (fun acc tag_str => tag_str.foldl addUniqueLabel acc) []

/-- Embeds the startup assertion of train.py (line 68):
`assert(len(label_list[0]) == len(label_list[1]))`.  Returns `true` when the
assertion passes (training proceeds) and `false` when it fails fatally. -/
def labelCheckPasses {α : Type} [DecidableEq α] (trainTags devTags : List (List α)) : Bool :=
  (uniqueLabels trainTags).length == (uniqueLabels devTags).length

/-- Spatial output size of the library convolution/pooling calls: `SAME`
padding yields `ceil(H / s)`, `VALID` yields `floor((H - k) / s) + 1`. -/
def convOutDim (p : Padding) (H k s : Nat) : Nat :=
  match p with
  | Padding.SAME => (H + s - 1) / s
  | Padding.VALID => (H - k) / s + 1

/-- Spatial (height or width) size of a graph expression given the spatial
size `H` of the input tensor; `flatten` and the fully-connected layer
collapse the spatial dimensions. -/
def outDim : T → Nat → Nat
  | T.input, H => H
  | T.pad x pb pe, H => outDim x H + pb + pe
  | T.convLib x _ k s p _, H => convOutDim p (outDim x H) k s
  | T.batchNormLib x _, H => outDim x H
  | T.relu x, H => outDim x H
  | T.add x _, H => outDim x H
  | T.maxPool x ps st p, H => convOutDim p (outDim x H) ps st
  | T.avgPool x ps st p, H => convOutDim p (outDim x H) ps st
  | T.identity x _, H => outDim x H
  | T.flatten _, _ => 1
  | T.fullyConnected _ _ _, _ => 1

/-- Extracts the shortcut operand of the additive join of a v1 block, whose
result has the shape `relu (main + shortcut)`. -/
def v1JoinShortcut : T → Option T
  | T.relu (T.add _ s) => some s
  | _ => none

/-- Iterating a one-argument function with `foldl` over `List.range` is
`Nat.iterate`. -/
theorem foldl_range_const {α : Type} (g : α → α) (m : Nat) (x : α) :
    (List.range m).foldl (fun acc _ => g acc) x = Nat.iterate g m x := by
  induction m with
  | zero => rfl
  | succ k ih =>
      rw [List.range_succ, List.foldl_append, ih, Function.iterate_succ_apply']
      rfl

/-- C1: `Model.__call__` applies no activation after the fully-connected
projection — for every model configuration, input and mode, the returned
graph is the fully-connected layer's output (under its `final_dense` name
tag), with no relu/softmax node above it. -/
theorem C1_final_output_raw_logits (m : Model) (x : T) (training : Bool) :
    ∃ pooled, m.call x training =
      T.identity (T.fullyConnected (T.flatten pooled) m.num_classes m.weight_decay)
        "final_dense" :=
  ⟨_, rfl⟩

/-- C2: `block_layer` invokes the block function once with the
projection-shortcut closure (a 1x1 convolution to `filters * 4` if bottleneck
else `filters`, at the stage strides) and the stage strides, and then
`n - 1` more times with no projection and stride 1. -/
theorem C2_block_layer_first_block_projection
    (x : T) (filters : Nat) (bottleneck : Bool)
    (block_fn : T → Nat → Bool → Option (T → Rat → T) → Nat → Rat → T)
    (n strides : Nat) (training : Bool) (name : String) (wd : Rat)
    (h : 1 ≤ n) :
    block_layer x filters bottleneck block_fn n strides training name wd =
      T.identity
        (Nat.iterate (fun a => block_fn a filters training none 1 wd) (n - 1)
          (block_fn x filters training
            (some fun t w =>
              conv2d_fixed_padding t (if bottleneck then filters * 4 else filters) 1 strides w)
            strides wd))
        name := by
  simp only [block_layer]
  rw [foldl_range_const]

/-- Witness for C2 at a concrete stage of 2 basic-v1 blocks. -/
theorem C2_block_layer_first_block_projection_witness :
    1 ≤ 2 ∧
    block_layer T.input 4 false building_block_v1 2 2 true "stage" (1/1000) =
      T.identity
        (Nat.iterate (fun a => building_block_v1 a 4 true none 1 (1/1000)) (2 - 1)
          (building_block_v1 T.input 4 true
            (some fun t w =>
              conv2d_fixed_padding t (if false then 4 * 4 else 4) 1 2 w)
            2 (1/1000)))
        "stage" :=
  ⟨by decide,
   C2_block_layer_first_block_projection T.input 4 false building_block_v1 2 2 true
     "stage" (1/1000) (by decide)⟩

/-- C3: in both v1 blocks, a supplied projection shortcut is applied to the
raw input and its result is then batch-normalized, and that normalized
projection is the shortcut operand of the additive join; with no projection
the shortcut operand is the raw input. -/
theorem C3_v1_shortcut_is_normalized_projection
    (x : T) (f : Nat) (tr : Bool) (p : T → Rat → T) (s : Nat) (wd : Rat) :
    (v1JoinShortcut (building_block_v1 x f tr (some p) s wd) =
        some (batch_norm (p x wd) tr)
      ∧ v1JoinShortcut (bottleneck_block_v1 x f tr (some p) s wd) =
        some (batch_norm (p x wd) tr))
    ∧ (v1JoinShortcut (building_block_v1 x f tr none s wd) = some x
      ∧ v1JoinShortcut (bottleneck_block_v1 x f tr none s wd) = some x) :=
  ⟨⟨rfl, rfl⟩, ⟨rfl, rfl⟩⟩

/-- C4: in both v2 blocks the result is `main + shortcut` with no activation
above the addition; the shortcut is the raw input when no projection is
supplied, and the projection, when supplied, consumes the
batch-normalized-and-activated input. -/
theorem C4_v2_shortcut_and_no_trailing_activation
    (x : T) (f : Nat) (tr : Bool) (p : T → Rat → T) (s : Nat) (wd : Rat) :
    (building_block_v2 x f tr (some p) s wd =
      T.add
        (conv2d_fixed_padding
          (T.relu (batch_norm
            (conv2d_fixed_padding (T.relu (batch_norm x tr)) f 3 s wd) tr))
          f 3 1 wd)
        (p (T.relu (batch_norm x tr)) wd))
    ∧ (building_block_v2 x f tr none s wd =
      T.add
        (conv2d_fixed_padding
          (T.relu (batch_norm
            (conv2d_fixed_padding (T.relu (batch_norm x tr)) f 3 s wd) tr))
          f 3 1 wd)
        x)
    ∧ (bottleneck_block_v2 x f tr (some p) s wd =
      T.add
        (conv2d_fixed_padding
          (T.relu (batch_norm
            (conv2d_fixed_padding
              (T.relu (batch_norm
                (conv2d_fixed_padding (T.relu (batch_norm x tr)) f 1 1 wd) tr))
              f 3 s wd) tr))
          (4 * f) 1 1 wd)
        (p (T.relu (batch_norm x tr)) wd))
    ∧ (bottleneck_block_v2 x f tr none s wd =
      T.add
        (conv2d_fixed_padding
          (T.relu (batch_norm
            (conv2d_fixed_padding
              (T.relu (batch_norm
                (conv2d_fixed_padding (T.relu (batch_norm x tr)) f 1 1 wd) tr))
              f 3 s wd) tr))
          (4 * f) 1 1 wd)
        x) :=
  ⟨rfl, rfl, rfl, rfl⟩

/-- C5: `conv2d_fixed_padding` preserves the spatial size at unit stride; at
stride `s > 1` it pads by `pad_total = k - 1` and the output spatial size is
`floor((H + pad_total - k) / s) + 1`, which equals `ceil(H / s)`. -/
theorem C5_conv2d_fixed_padding_output_size
    (H k s f : Nat) (wd : Rat) (hH : 1 ≤ H) (hk : 1 ≤ k) :
    outDim (conv2d_fixed_padding T.input f k 1 wd) H = H
    ∧ (2 ≤ s →
        outDim (conv2d_fixed_padding T.input f k s wd) H = (H + (k - 1) - k) / s + 1
        ∧ (H + (k - 1) - k) / s + 1 = (H + s - 1) / s) := by
  constructor
  · simp [conv2d_fixed_padding, outDim, convOutDim]
  · intro hs
    have hs1 : ¬ s = 1 := by omega
    have hs2 : s > 1 := by omega
    constructor
    · simp only [conv2d_fixed_padding, fixed_padding, if_pos hs2, if_neg hs1,
        outDim, convOutDim]
      congr 2
      omega
    · have h1 : H + (k - 1) - k = H - 1 := by omega
      have h2 : H + s - 1 = (H - 1) + s := by omega
      rw [h1, h2, Nat.add_div_right _ (by omega : 0 < s)]

/-- Witness for C5 at `H = 5`, `k = 3`, `s = 2`. -/
theorem C5_conv2d_fixed_padding_output_size_witness :
    1 ≤ 5 ∧ 1 ≤ 3 ∧
    (outDim (conv2d_fixed_padding T.input 8 3 1 (1/1000)) 5 = 5
    ∧ (2 ≤ 2 →
        outDim (conv2d_fixed_padding T.input 8 3 2 (1/1000)) 5 = (5 + (3 - 1) - 3) / 2 + 1
        ∧ (5 + (3 - 1) - 3) / 2 + 1 = (5 + 2 - 1) / 2)) :=
  ⟨by decide, by decide,
   C5_conv2d_fixed_padding_output_size 5 3 2 8 (1/1000) (by decide) (by decide)⟩

/-- C6: `Model.__init__` fails with the configuration error exactly when
`version` is neither 1 nor 2; for `version` in `{1, 2}` it succeeds and
selects the block function by the pure `(version, bottleneck)` mapping. -/
theorem C6_version_validation
    (b : Bool) (nc nf ks cs : Nat) (fps : Option Nat) (fpstr sps spstr : Nat)
    (bs bstr : List Nat) (fs : Nat) (v : Int) (wd : Rat) :
    if v = 1 ∨ v = 2 then
      ∃ m, modelInit b nc nf ks cs fps fpstr sps spstr bs bstr fs v wd = Except.ok m
        ∧ m.resnet_version = v
        ∧ m.block_fn =
            (if b then (if v = 1 then bottleneck_block_v1 else bottleneck_block_v2)
             else (if v = 1 then building_block_v1 else building_block_v2))
    else
      modelInit b nc nf ks cs fps fpstr sps spstr bs bstr fs v wd =
        Except.error "Resnet version should be 1 or 2. See README for citations." := by
  by_cases h : v = 1 ∨ v = 2
  · rw [if_pos h]
    exact ⟨_, by rw [modelInit, if_pos h], rfl, rfl⟩
  · rw [if_neg h, modelInit, if_neg h]

/-- C9: `build_resnet_` constructs the model with `version = DEFAULT_VERSION
= 2` unconditionally, so construction always succeeds with a v2 block
function; `params.num_classes` is passed as the `final_size` argument; and
the `version`/`final_size` fields of the params object are never read. -/
theorem C9_build_resnet_ignores_params_version (p : Params) :
    ∃ m, build_resnet_model p = Except.ok m
      ∧ m.resnet_version = DEFAULT_VERSION
      ∧ DEFAULT_VERSION = 2
      ∧ m.block_fn = (if p.bottleneck then bottleneck_block_v2 else building_block_v2)
      ∧ m.final_size = p.num_classes
      ∧ (∀ v fs, build_resnet_model { p with version := v, final_size := fs } =
          build_resnet_model p) := by
  unfold build_resnet_model modelInit
  rw [if_pos (by decide : DEFAULT_VERSION = 1 ∨ DEFAULT_VERSION = 2)]
  refine ⟨_, rfl, rfl, rfl, ?_, rfl, fun v fs => rfl⟩
  simp [DEFAULT_VERSION]

/-- When every entry has a nonzero F2 denominator, the F2 loop succeeds and
augments each entry with `f2_of` of its precision and recall. -/
theorem computeF2List_success (ms : List MetricsEntry)
    (h : ∀ e ∈ ms, 4 * e.precision + e.recall_ ≠ 0) :
    computeF2List ms =
      some (ms.map fun e => ⟨e.name, e.precision, e.recall_, f2_of e.precision e.recall_⟩) := by
  induction ms with
  | nil => rfl
  | cons a l ih =>
      have ha : 4 * a.precision + a.recall_ ≠ 0 := h a (by simp)
      have hl : ∀ e ∈ l, 4 * e.precision + e.recall_ ≠ 0 := fun e he => h e (by simp [he])
      simp [computeF2List, computeF2, ha, ih hl, f2_of]

/-- If some entry has a zero F2 denominator, the F2 loop raises
(`ZeroDivisionError`), i.e. returns `none`. -/
theorem computeF2List_zero_denom (ms : List MetricsEntry) (e : MetricsEntry)
    (he : e ∈ ms) (h0 : 4 * e.precision + e.recall_ = 0) :
    computeF2List ms = none := by
  induction ms with
  | nil => cases he
  | cons a l ih =>
      rcases List.mem_cons.mp he with rfl | hmem
      · simp [computeF2List, computeF2, h0]
      · rw [computeF2List, ih hmem]
        cases computeF2 a <;> rfl

/-- C7: for a nonempty metrics dictionary in which every entry's denominator
`4 * precision + recall` is nonzero, `metrics_to_table` sets each entry's F2
to `5 * precision * recall / (4 * precision + recall)`; for precision `4/5`
and recall `1/2` that value is `20/37` (= 2.0/3.7), the same for every such
entry. -/
theorem C7_f2_formula (ms : List MetricsEntry)
    (hne : ms ≠ [])
    (h : ∀ e ∈ ms, 4 * e.precision + e.recall_ ≠ 0) :
    metrics_to_table ms =
      some (ms.map fun e => ⟨e.name, e.precision, e.recall_, f2_of e.precision e.recall_⟩)
    ∧ f2_of (4/5) (1/2) = 20/37 := by
  constructor
  · rw [metrics_to_table, computeF2List_success ms h]
    cases ms with
    | nil => exact absurd rfl hne
    | cons a l => rfl
  · norm_num [f2_of]

/-- Witness for C7: two experiment entries, each with precision `4/5` and
recall `1/2`, both receive F2 `= 20/37`. -/
theorem C7_f2_formula_witness :
    ([(⟨"exp1", 4/5, 1/2⟩ : MetricsEntry), ⟨"exp2", 4/5, 1/2⟩] ≠ [])
    ∧ (∀ e ∈ [(⟨"exp1", 4/5, 1/2⟩ : MetricsEntry), ⟨"exp2", 4/5, 1/2⟩],
        4 * e.precision + e.recall_ ≠ 0)
    ∧ (metrics_to_table [(⟨"exp1", 4/5, 1/2⟩ : MetricsEntry), ⟨"exp2", 4/5, 1/2⟩] =
        some ([(⟨"exp1", 4/5, 1/2⟩ : MetricsEntry), ⟨"exp2", 4/5, 1/2⟩].map
          fun e => ⟨e.name, e.precision, e.recall_, f2_of e.precision e.recall_⟩)
      ∧ f2_of (4/5) (1/2) = 20/37) :=
  ⟨by simp, by intro e he; fin_cases he <;> norm_num,
   C7_f2_formula [⟨"exp1", 4/5, 1/2⟩, ⟨"exp2", 4/5, 1/2⟩] (by simp)
     (by intro e he; fin_cases he <;> norm_num)⟩

/-- C10: the F2 computation divides by `4 * precision + recall` without a
guard: any metrics dictionary containing an entry with precision 0 and
recall 0 makes `metrics_to_table` raise a division-by-zero error instead of
producing a table. -/
theorem C10_f2_division_by_zero (ms : List MetricsEntry) (e : MetricsEntry)
    (he : e ∈ ms) (hp : e.precision = 0) (hr : e.recall_ = 0) :
    metrics_to_table ms = none := by
  rw [metrics_to_table, computeF2List_zero_denom ms e he (by rw [hp, hr]; norm_num)]

/-- Witness for C10 at a single entry with precision 0 and recall 0. -/
theorem C10_f2_division_by_zero_witness :
    ((⟨"bad", 0, 0⟩ : MetricsEntry) ∈ [(⟨"bad", 0, 0⟩ : MetricsEntry)])
    ∧ (⟨"bad", 0, 0⟩ : MetricsEntry).precision = 0
    ∧ (⟨"bad", 0, 0⟩ : MetricsEntry).recall_ = 0
    ∧ metrics_to_table [(⟨"bad", 0, 0⟩ : MetricsEntry)] = none :=
  ⟨by simp, rfl, rfl,
   C10_f2_division_by_zero [⟨"bad", 0, 0⟩] ⟨"bad", 0, 0⟩ (by simp) rfl rfl⟩

/-- Folding `addUniqueLabel` collects exactly the union of the elements. -/
theorem foldl_addUniqueLabel_toFinset {α : Type} [DecidableEq α]
    (xs acc : List α) :
    (xs.foldl addUniqueLabel acc).toFinset = acc.toFinset ∪ xs.toFinset := by
  induction xs generalizing acc with
  | nil => simp
  | cons x xs ih =>
      rw [List.foldl_cons, ih]
      unfold addUniqueLabel
      by_cases h : x ∈ acc
      · rw [if_pos h]
        ext a
        simp only [Finset.mem_union, List.mem_toFinset, List.mem_cons]
        constructor
        · rintro (ha | ha) <;> tauto
        · rintro (ha | rfl | ha) <;> tauto
      · rw [if_neg h]
        ext a
        simp only [Finset.mem_union, List.mem_toFinset, List.mem_append,
          List.mem_singleton, List.mem_cons]
        tauto

/-- Folding `addUniqueLabel` preserves freedom from duplicates. -/
theorem foldl_addUniqueLabel_nodup {α : Type} [DecidableEq α]
    (xs acc : List α) (hacc : acc.Nodup) :
    (xs.foldl addUniqueLabel acc).Nodup := by
  induction xs generalizing acc with
  | nil => exact hacc
  | cons x xs ih =>
      rw [List.foldl_cons]
      apply ih
      unfold addUniqueLabel
      by_cases h : x ∈ acc
      · rwa [if_pos h]
      · rw [if_neg h]
        simpa [List.nodup_append] using ⟨hacc, h⟩

/-- The nested tag loop is the flat loop over the concatenated labels. -/
theorem uniqueLabels_eq_foldl_flatten {α : Type} [DecidableEq α]
    (tags : List (List α)) :
    uniqueLabels tags = tags.flatten.foldl addUniqueLabel [] := by
  suffices h : ∀ acc : List α,
      tags.foldl (fun acc tag_str => tag_str.foldl addUniqueLabel acc) acc =
        tags.flatten.foldl addUniqueLabel acc from h []
  induction tags with
  | nil => intro acc; rfl
  | cons t ts ih =>
      intro acc
      rw [List.foldl_cons, ih, List.flatten_cons, List.foldl_append]

/-- The unique-label list of a split has as many entries as there are
distinct labels among the split's tags. -/
theorem uniqueLabels_length {α : Type} [DecidableEq α] (tags : List (List α)) :
    (uniqueLabels tags).length = tags.flatten.toFinset.card := by
  have hnd : (uniqueLabels tags).Nodup := by
    rw [uniqueLabels_eq_foldl_flatten]
    exact foldl_addUniqueLabel_nodup _ _ List.nodup_nil
  have hfs : (uniqueLabels tags).toFinset = tags.flatten.toFinset := by
    rw [uniqueLabels_eq_foldl_flatten, foldl_addUniqueLabel_toFinset]
    simp
  rw [← List.toFinset_card_of_nodup hnd, hfs]

/-- C8 counterexample: with train tags `[[0, 1]]` and dev tags `[[0, 2]]`
the two label sets differ, yet the startup assertion passes (both label
lists have length 2), so the entry point does not fail: the claim that it
fails whenever the label sets differ is false. -/
theorem C8_counterexample_sets_differ_check_passes :
    ¬ ((([[0, 1]] : List (List Nat)).flatten.toFinset ≠
          ([[0, 2]] : List (List Nat)).flatten.toFinset) →
        labelCheckPasses [[0, 1]] [[0, 2]] = false) := by
  intro h
  have hne : (([[0, 1]] : List (List Nat)).flatten.toFinset ≠
      ([[0, 2]] : List (List Nat)).flatten.toFinset) := by
    intro heq
    have h1 : (1 : Nat) ∈ ([[0, 2]] : List (List Nat)).flatten.toFinset := by
      rw [← heq]; decide
    revert h1; decide
  have := h hne
  revert this; decide

/-- C8 (amended): the startup assertion of train.py fails if and only if the
number of distinct labels derived from the train split differs from the
number of distinct labels derived from the dev split — it compares the
counts of the two label vocabularies, not the vocabularies themselves. -/
theorem C8_label_count_check {α : Type} [DecidableEq α]
    (trainTags devTags : List (List α)) :
    labelCheckPasses trainTags devTags = false ↔
      trainTags.flatten.toFinset.card ≠ devTags.flatten.toFinset.card := by
  rw [labelCheckPasses, ← uniqueLabels_length, ← uniqueLabels_length]
  simp [Nat.beq_eq_true_eq]
